import Mathlib

/-!
Verification of the sabx credential-and-connection-resolution subsystem.

This file shallowly embeds the Go sources of the subsystem:
  * `internal/auth/store.go` — the Secret Store (key derivation, backend
    selection, save/load/delete over the external keyring library, which is
    modelled as a finite map from keys to items);
  * the two `package config` variants found in the repository (the Profile
    Store): the temp-file/rename implementation (namespace `config`) and the
    in-place `os.WriteFile` implementation (namespace `configB`);
  * `resolveConnection` / `profileOrDefault` from `package root` (the
    Connection Resolver).

Go machine-level details are embedded as follows: `[]byte` values are
`List Nat` with every element below 256, 32-bit words are `Nat` reduced
modulo `2 ^ 32`, `crypto/sha256` is implemented in full (validated against
the FIPS 180-4 test vectors below), errors are an explicit inductive type
mirroring Go's wrap/unwrap chains, and the filesystem is a partial map from
path to file entry so that the atomic-save protocol can be stepped.
-/

namespace sabx

/-! ## Go string primitives

`String` in this embedding is Lean's `String` (a list of characters); the
Go standard-library helpers used by the subsystem are reproduced here.
`goIsSpace` is Go's `unicode.IsSpace`: the Latin-1 fast path plus the
Unicode White_Space property. -/

def goIsSpace (c : Char) : Bool :=
  c = ' ' ∨ c = '\t' ∨ c = '\n' ∨ c = '\x0b' ∨ c = '\x0c' ∨ c = '\r' ∨
  c = '\x85' ∨ c = '\xa0' ∨ c.toNat = 0x1680 ∨
  (0x2000 ≤ c.toNat ∧ c.toNat ≤ 0x200a) ∨ c.toNat = 0x2028 ∨
  c.toNat = 0x2029 ∨ c.toNat = 0x202f ∨ c.toNat = 0x205f ∨ c.toNat = 0x3000

/-- Go `strings.TrimSpace`: strip leading and trailing white space
(`List.rdropWhile` drops from the right). -/
def trimSpace (s : String) : String :=
  ⟨List.rdropWhile goIsSpace (s.data.dropWhile goIsSpace)⟩

/-- Go `strings.TrimRight(s, "/")`: strip trailing slashes. -/
def trimRightSlashes (s : String) : String :=
  ⟨List.rdropWhile (fun c => c = '/') s.data⟩

/-- Go `strings.ToLower`, restricted to the ASCII simple case mapping (every
string the subsystem lowercases — backend identifiers and URLs appearing in
the claims — is ASCII; non-ASCII case folding is not modelled). -/
def goToLowerChar (c : Char) : Char :=
  if 'A' ≤ c ∧ c ≤ 'Z' then Char.ofNat (c.toNat + 32) else c

def goToLower (s : String) : String := ⟨s.data.map goToLowerChar⟩

/-- Go `strings.ReplaceAll(s, " ", "-")` (single-character pattern, hence a
character-wise map). -/
def replaceSpaceWithDash (s : String) : String :=
  ⟨s.data.map (fun c => if c = ' ' then '-' else c)⟩

/-- Go `strings.Split(s, ",")`. -/
def splitCommas (s : String) : List String := s.splitOn ","

/-- `firstNonEmpty` from `internal/auth/store.go`: the first value whose
trimmed form is non-empty, else the empty string. -/
def firstNonEmpty (values : List String) : String :=
  match values with
  | [] => ""
  | v :: rest => if trimSpace v ≠ "" then v else firstNonEmpty rest

/-! ## Bytes and SHA-256

`utf8Bytes` is Go's `[]byte(s)` conversion (UTF-8 encoding). `sha256Bytes`
is `crypto/sha256.Sum256`, written over `List Nat` so that every derived
key below is computable by the kernel. -/

def utf8EncodeCharNat (c : Char) : List Nat :=
  let n := c.toNat
  if n < 0x80 then [n]
  else if n < 0x800 then [0xc0 + n / 0x40, 0x80 + n % 0x40]
  else if n < 0x10000 then
    [0xe0 + n / 0x1000, 0x80 + (n / 0x40) % 0x40, 0x80 + n % 0x40]
  else
    [0xf0 + n / 0x40000, 0x80 + (n / 0x1000) % 0x40,
     0x80 + (n / 0x40) % 0x40, 0x80 + n % 0x40]

def utf8Bytes (s : String) : List Nat := s.data.flatMap utf8EncodeCharNat

/-- Reduce modulo `2 ^ 32` (Go `uint32` arithmetic). -/
def w32 (n : Nat) : Nat := n % 4294967296

/-- Right rotation of a 32-bit word. -/
def rotr (k x : Nat) : Nat := x / 2 ^ k + x % 2 ^ k * 2 ^ (32 - k)

/-- Logical right shift of a 32-bit word. -/
def shr (k x : Nat) : Nat := x / 2 ^ k

def bnot32 (x : Nat) : Nat := Nat.xor x 4294967295

def sha256Ch (x y z : Nat) : Nat :=
  Nat.xor (Nat.land x y) (Nat.land (bnot32 x) z)

def sha256Maj (x y z : Nat) : Nat :=
  Nat.xor (Nat.xor (Nat.land x y) (Nat.land x z)) (Nat.land y z)

def bigSigma0 (x : Nat) : Nat :=
  Nat.xor (Nat.xor (rotr 2 x) (rotr 13 x)) (rotr 22 x)

def bigSigma1 (x : Nat) : Nat :=
  Nat.xor (Nat.xor (rotr 6 x) (rotr 11 x)) (rotr 25 x)

def smallSigma0 (x : Nat) : Nat :=
  Nat.xor (Nat.xor (rotr 7 x) (rotr 18 x)) (shr 3 x)

def smallSigma1 (x : Nat) : Nat :=
  Nat.xor (Nat.xor (rotr 17 x) (rotr 19 x)) (shr 10 x)

/-- The 64 round constants of FIPS 180-4 §4.2.2, written in decimal. -/
def sha256K : List Nat :=
  [1116352408, 1899447441, 3049323471, 3921009573,
   961987163, 1508970993, 2453635748, 2870763221,
   3624381080, 310598401, 607225278, 1426881987,
   1925078388, 2162078206, 2614888103, 3248222580,
   3835390401, 4022224774, 264347078, 604807628,
   770255983, 1249150122, 1555081692, 1996064986,
   2554220882, 2821834349, 2952996808, 3210313671,
   3336571891, 3584528711, 113926993, 338241895,
   666307205, 773529912, 1294757372, 1396182291,
   1695183700, 1986661051, 2177026350, 2456956037,
   2730485921, 2820302411, 3259730800, 3345764771,
   3516065817, 3600352804, 4094571909, 275423344,
   430227734, 506948616, 659060556, 883997877,
   958139571, 1322822218, 1537002063, 1747873779,
   1955562222, 2024104815, 2227730452, 2361852424,
   2428436474, 2756734187, 3204031479, 3329325298]

/-- The initial hash value of FIPS 180-4 §5.3.3, written in decimal. -/
def sha256InitHash : List Nat :=
  [1779033703, 3144134277, 1013904242, 2773480762,
   1359893119, 2600822924, 528734635, 1541459225]

/-- `k`-byte big-endian encoding of `n`. -/
def beBytes : Nat → Nat → List Nat
  | 0, _ => []
  | k + 1, n => beBytes k (n / 256) ++ [n % 256]

/-- FIPS 180-4 padding: append `0x80`, zero-fill to 56 mod 64, then the
64-bit big-endian bit length. -/
def padMessage (msg : List Nat) : List Nat :=
  let padZeros := (55 + 64 - msg.length % 64) % 64
  msg ++ [0x80] ++ List.replicate padZeros 0 ++ beBytes 8 (msg.length * 8)

/-- Split into 64-byte blocks (fuel-based so the kernel can evaluate it). -/
def toBlocksFuel : Nat → List Nat → List (List Nat)
  | 0, _ => []
  | _, [] => []
  | fuel + 1, x :: xs =>
    ((x :: xs).take 64) :: toBlocksFuel fuel ((x :: xs).drop 64)

def toBlocks (l : List Nat) : List (List Nat) := toBlocksFuel l.length l

/-- 64 bytes to 16 big-endian 32-bit words. -/
def bytesToWords : List Nat → List Nat
  | b0 :: b1 :: b2 :: b3 :: rest =>
    (((b0 * 256 + b1) * 256 + b2) * 256 + b3) :: bytesToWords rest
  | _ => []

/-- Extend 16 schedule words to 64. -/
def extendSchedule (w : Array Nat) : Array Nat :=
  (List.range 48).foldl
    (fun w i =>
      w.push (w32 (smallSigma1 (w.get! (i + 14)) + w.get! (i + 9) +
        smallSigma0 (w.get! (i + 1)) + w.get! i)))
    w

/-- One SHA-256 round on the eight-word working state. -/
def sha256Round (st : List Nat) (kw : Nat × Nat) : List Nat :=
  match st with
  | [a, b, c, d, e, f, g, h] =>
    let t1 := w32 (h + bigSigma1 e + sha256Ch e f g + kw.1 + kw.2)
    let t2 := w32 (bigSigma0 a + sha256Maj a b c)
    [w32 (t1 + t2), a, b, c, w32 (d + t1), e, f, g]
  | other => other

def compressBlock (hv : List Nat) (block : List Nat) : List Nat :=
  let ws := (extendSchedule (bytesToWords block).toArray).toList
  let st := (sha256K.zip ws).foldl sha256Round hv
  (hv.zip st).map (fun p => w32 (p.1 + p.2))

/-- `crypto/sha256.Sum256`: the 32-byte digest. -/
def sha256Bytes (msg : List Nat) : List Nat :=
  ((toBlocks (padMessage msg)).foldl compressBlock sha256InitHash).flatMap
    (beBytes 4)

def hexDigit (n : Nat) : Char :=
  if n < 10 then Char.ofNat (48 + n) else Char.ofNat (87 + n)

/-- Go `encoding/hex.EncodeToString` (lowercase). -/
def hexEncode (bs : List Nat) : String :=
  ⟨bs.flatMap (fun b => [hexDigit (b / 16), hexDigit (b % 16)])⟩


/-! ## Go errors

Go errors are modelled as an explicit chain: `wrapf pre post cause` is
`fmt.Errorf(pre ++ "%w" ++ post, ..., cause)`, `mk` is `errors.New` /
`fmt.Errorf` without `%w`, and the three sentinel values used by the
subsystem are dedicated constructors (`noAvailImpl` is the keyring
library's `ErrNoAvailImpl`, `keyNotFound` its `ErrKeyNotFound`, `notExist`
is `os.ErrNotExist`). `errIs` is `errors.Is` restricted to this chain. -/

inductive GoErr where
  | noAvailImpl : GoErr
  | keyNotFound : GoErr
  | notExist : GoErr
  | mk (msg : String) : GoErr
  | wrapf (pre post : String) (cause : GoErr) : GoErr
deriving DecidableEq, Repr

/-- The message text of an error (`err.Error()`); the sentinel texts are
those of the external libraries / standard library. -/
def GoErr.message : GoErr → String
  | .noAvailImpl => "Specified keyring backend not available"
  | .keyNotFound => "The specified item could not be found in the keyring"
  | .notExist => "file does not exist"
  | .mk m => m
  | .wrapf pre post cause => pre ++ cause.message ++ post

/-- `errors.Is(e, target)` for sentinel targets: a wrapped error is never
itself equal to a sentinel, so the walk just unwraps. -/
def errIs : GoErr → GoErr → Bool
  | .wrapf _ _ cause, target => errIs cause target
  | e, target => e = target

namespace auth

/-! ## Secret Store (`internal/auth/store.go`)

The external `99designs/keyring` handle is modelled as a finite map from
key strings to items; `krSet` / `krGet` / `krRemove` are the library's
`Set` / `Get` / `Remove` contract as consumed by the store (`Get` and
`Remove` report `ErrKeyNotFound` for an absent key). -/

def serviceName : String := "sabx"

def envAllowInsecure : String := "SABX_ALLOW_INSECURE_STORE"

/-- `auth.ErrNotFound`, declared as `os.ErrNotExist` in the source. -/
def ErrNotFound : GoErr := GoErr.notExist

structure Item where
  data : String
  label : String
deriving DecidableEq, Repr

def Keyring := String → Option Item

def krSet (kr : Keyring) (key : String) (item : Item) : Keyring :=
  fun k => if k = key then some item else kr k

def krGet (kr : Keyring) (key : String) : Except GoErr Item :=
  match kr key with
  | some item => .ok item
  | none => .error .keyNotFound

def krRemove (kr : Keyring) (key : String) : Except GoErr Keyring :=
  match kr key with
  | some _ => .ok (fun k => if k = key then none else kr k)
  | none => .error .keyNotFound

/-- `auth.Store`: `none` models a nil store / nil keyring handle. -/
structure Store where
  kr : Option Keyring

/-- `sanitize` from `store.go`. -/
def sanitize (value : String) : String :=
  let value := trimSpace value
  if value = "" then "default"
  else goToLower (replaceSpaceWithDash value)

/-- `normalizeBaseURL` from `store.go`. -/
def normalizeBaseURL (raw : String) : String :=
  trimRightSlashes (goToLower (trimSpace raw))

/-- `keyFor` from `store.go`: the derived key
`profile/<sanitized>/<hex of first 16 bytes of sha256(normalized URL)>`. -/
def keyFor (profile baseURL : String) : String :=
  "profile/" ++ sanitize profile ++ "/" ++
    hexEncode ((sha256Bytes (utf8Bytes (normalizeBaseURL baseURL))).take 16)

/-- `Store.Save`: writes the secret under the derived key with a
human-readable label; returns the updated backend state. -/
def Store.save (s : Store) (profile baseURL apiKey : String) :
    Except GoErr Store :=
  match s.kr with
  | none => .error (.mk "secret store not initialized")
  | some kr =>
    .ok ⟨some (krSet kr (keyFor profile baseURL)
      ⟨apiKey, "sabx profile " ++ sanitize profile ++ " API key"⟩)⟩

/-- `Store.Load`: the stored secret, `ErrNotFound` when absent. -/
def Store.load (s : Store) (profile baseURL : String) :
    Except GoErr String :=
  match s.kr with
  | none => .error (.mk "secret store not initialized")
  | some kr =>
    match krGet kr (keyFor profile baseURL) with
    | .ok item => .ok item.data
    | .error e => if errIs e .keyNotFound then .error ErrNotFound else .error e

/-- `Store.Delete`: removes the record; an absent record is not an error. -/
def Store.delete (s : Store) (profile baseURL : String) :
    Except GoErr Store :=
  match s.kr with
  | none => .error (.mk "secret store not initialized")
  | some kr =>
    match krRemove kr (keyFor profile baseURL) with
    | .ok kr' => .ok ⟨some kr'⟩
    | .error e => if errIs e .keyNotFound then .ok s else .error e

/-! ## Backend selection (`store.go`) -/

inductive BackendType where
  | keychain | wincred | secretService | kwallet | keyctl | pass | file
deriving DecidableEq, Repr

/-- `openOptions` from `store.go`. -/
structure OpenOptions where
  allowFile : Bool := false
  passphrase : String := ""
  allowedBackends : List BackendType := []
  fileDir : String := ""

/-- The environment variables consulted when opening the store. -/
structure StoreEnv where
  allowInsecure : String := ""   -- SABX_ALLOW_INSECURE_STORE
  passphrase : String := ""      -- SABX_KEYRING_PASSPHRASE
  fileDir : String := ""         -- SABX_KEYRING_FILE_DIR
  sabxBackend : String := ""     -- SABX_KEYRING_BACKEND
  keyringBackend : String := ""  -- KEYRING_BACKEND

/-- `envEnabled` from `store.go`. -/
def envEnabled (raw : String) : Bool :=
  goToLower (trimSpace raw) = "1" ∨ goToLower (trimSpace raw) = "true" ∨
  goToLower (trimSpace raw) = "yes" ∨ goToLower (trimSpace raw) = "on"

/-- `defaultBackends` from `store.go` (`goos` is `runtime.GOOS`). -/
def defaultBackends (goos : String) : List BackendType :=
  if goos = "darwin" then [.keychain]
  else if goos = "windows" then [.wincred]
  else [.secretService, .kwallet, .keyctl, .pass]

/-- `parseBackendList` from `store.go`: recognise comma-separated backend
names, then strip the file backend unless `allowFile`. -/
def parseBackendList (raw : String) (allowFile : Bool) : List BackendType :=
  let backends := (splitCommas raw).filterMap (fun part =>
    let name := goToLower (trimSpace part)
    if name = "keychain" then some .keychain
    else if name = "wincred" then some .wincred
    else if name = "secret-service" ∨ name = "secretservice" then
      some .secretService
    else if name = "kwallet" then some .kwallet
    else if name = "keyctl" then some .keyctl
    else if name = "pass" then some .pass
    else if name = "file" then some .file
    else none)
  if allowFile then backends
  else backends.filter (fun b => b ≠ .file)

/-- `resolveAllowedBackends` from `store.go`. -/
def resolveAllowedBackends (env : StoreEnv) (goos : String)
    (opts : OpenOptions) : List BackendType :=
  if opts.allowedBackends ≠ [] then opts.allowedBackends
  else
    let backendEnv :=
      trimSpace (firstNonEmpty [env.sabxBackend, env.keyringBackend])
    if backendEnv ≠ "" then parseBackendList backendEnv opts.allowFile
    else
      defaultBackends goos ++ if opts.allowFile then [.file] else []

def usesFileBackend (backends : List BackendType) : Bool :=
  backends.contains .file

/-- `IsNoKeyringError` from `store.go`. -/
def IsNoKeyringError (e : GoErr) : Bool := errIs e .noAvailImpl

/-- The option values merged from the environment before explicit options
are applied (first half of `Open`). -/
def envSettings (env : StoreEnv) : OpenOptions :=
  let s : OpenOptions := {}
  let s := if envEnabled env.allowInsecure then { s with allowFile := true } else s
  let s := if trimSpace env.passphrase ≠ "" then
    { s with passphrase := trimSpace env.passphrase } else s
  if trimSpace env.fileDir ≠ "" then { s with fileDir := trimSpace env.fileDir }
  else s

/-- `WithAllowFileFallback`. -/
def withAllowFileFallback (enable : Bool) (o : OpenOptions) : OpenOptions :=
  { o with allowFile := enable }

/-- `WithPassphrase`. -/
def withPassphrase (pass : String) (o : OpenOptions) : OpenOptions :=
  if pass ≠ "" then { o with passphrase := pass } else o

/-- `WithFileDir`. -/
def withFileDir (dir : String) (o : OpenOptions) : OpenOptions :=
  if dir ≠ "" then { o with fileDir := dir } else o

/-- The option record `Open` builds before resolving backends: environment
settings first, then the explicit options in order. -/
def openSettings (env : StoreEnv)
    (optFns : List (OpenOptions → OpenOptions)) : OpenOptions :=
  optFns.foldl (fun s f => f s) (envSettings env)

/-- `Open` from `store.go`. The external `keyring.Open` call is a parameter
`krOpen` mapping the resolved allow-list to a handle or an error
(`configureFileBackend` always returns nil and only fills prompt fields,
which have no observable effect here). -/
def Open (goos : String) (env : StoreEnv)
    (optFns : List (OpenOptions → OpenOptions))
    (krOpen : List BackendType → Except GoErr Keyring) :
    Except GoErr Store :=
  let settings := openSettings env optFns
  let allowed := resolveAllowedBackends env goos settings
  match krOpen allowed with
  | .ok kr => .ok ⟨some kr⟩
  | .error e =>
    if errIs e .noAvailImpl ∧ ¬ usesFileBackend allowed then
      .error (.wrapf "open keyring: "
        (" (set SABX_ALLOW_INSECURE_STORE=1 or rerun with" ++
         " --allow-insecure-store to permit encrypted file fallback)") e)
    else
      .error (.wrapf "open keyring: " "" e)

end auth


/-! ## Filesystem model

A filesystem is a partial map from path to file entry (content and
permission bits). Saves are embedded as explicit lists of
`FS → FS` steps (one step per syscall) so that every intermediate state a
crash or concurrent reader could observe is a term of the model. -/

structure FileEnt where
  content : String
  mode : Nat
deriving DecidableEq, Repr

def FS := String → Option FileEnt

/-- `os.CreateTemp`: a fresh file with mode `0600`. -/
def fsCreate (p : String) (mode : Nat) (fs : FS) : FS :=
  fun q => if q = p then some ⟨"", mode⟩ else fs q

/-- `File.Write` on an open handle: append to the file's content. -/
def fsAppend (p : String) (d : String) (fs : FS) : FS :=
  fun q => if q = p then (fs p).map (fun e => ⟨e.content ++ d, e.mode⟩)
           else fs q

/-- `File.Sync`: flushes to stable storage; no change to observable state. -/
def fsSync (fs : FS) : FS := fs

/-- `File.Close`: no change to observable state. -/
def fsClose (fs : FS) : FS := fs

/-- `File.Chmod`. -/
def fsChmod (p : String) (mode : Nat) (fs : FS) : FS :=
  fun q => if q = p then (fs p).map (fun e => ⟨e.content, mode⟩) else fs q

/-- `os.Rename src dst`: atomically replace `dst` by `src`. -/
def fsRename (src dst : String) (fs : FS) : FS :=
  match fs src with
  | some e => fun q => if q = src then none else if q = dst then some e else fs q
  | none => fs

/-- `os.Remove`. -/
def fsRemove (p : String) (fs : FS) : FS :=
  fun q => if q = p then none else fs q

/-- `os.OpenFile(p, O_WRONLY|O_CREATE|O_TRUNC, mode)` as performed by
`os.WriteFile`: truncate an existing file (keeping its mode) or create. -/
def fsTruncCreate (p : String) (mode : Nat) (fs : FS) : FS :=
  fun q => if q = p then
    some (match fs p with
          | some e => ⟨"", e.mode⟩
          | none => ⟨"", mode⟩)
  else fs q

def runSteps (steps : List (FS → FS)) (fs : FS) : FS :=
  steps.foldl (fun fs f => f fs) fs

namespace config

/-! ## Profile Store, temp-file/rename variant

The `package config` implementation whose `Save` writes a temp file,
syncs, chmods and renames. `yaml.Marshal` / `yaml.Unmarshal` are
parameters (`marshal`, `unmarshal`): the claims under examination concern
the persistence protocol and the collection's shape, not YAML syntax.
`unmarshal` receives the file content and the pre-initialized collection
it decodes into, as `yaml.Unmarshal(data, cfg)` does. -/

structure Profile where
  baseURL : String := ""
  apiKey : String := ""
  allowInsecureStore : Bool := false
deriving DecidableEq, Repr

structure Config where
  defaultProfile : String := ""
  profiles : List (String × Profile) := []
  path : String := ""
deriving DecidableEq, Repr

/-- `config.Load`: try `config.yml` then `config.yaml` under the resolved
directory; an absent file falls through, an empty file short-circuits,
otherwise the content is unmarshalled into the pre-initialized collection
(`DefaultProfile: "default"`, empty profile map) and re-defaulted. -/
def load (fs : FS) (dir : String)
    (unmarshal : String → Config → Except GoErr Config) :
    Except GoErr Config :=
  let cfg0 : Config := { defaultProfile := "default", profiles := [] }
  let parseAt := fun (path : String) (ent : FileEnt) =>
    if ent.content = "" then Except.ok { cfg0 with path := path }
    else
      match unmarshal ent.content cfg0 with
      | .error e => .error e
      | .ok c =>
        .ok { c with
              path := path
              defaultProfile :=
                if c.defaultProfile = "" then "default" else c.defaultProfile }
  match fs (dir ++ "/config.yml") with
  | some ent => parseAt (dir ++ "/config.yml") ent
  | none =>
    match fs (dir ++ "/config.yaml") with
    | some ent => parseAt (dir ++ "/config.yaml") ent
    | none => .ok { cfg0 with path := dir ++ "/config.yml" }

/-- The step sequence of `Config.Save` (temp-file variant): create the
temp file, write the serialized collection, sync, chmod `0600`, close,
rename over the target, and the deferred removal of the (now renamed)
temp file. -/
def saveSteps (tmp path data : String) : List (FS → FS) :=
  [fsCreate tmp 0o600, fsAppend tmp data, fsSync, fsChmod tmp 0o600,
   fsClose, fsRename tmp path, fsRemove tmp]

/-- `Config.Save` run to completion on a filesystem. -/
def save (marshal : Config → String) (tmp : String) (c : Config) (fs : FS) :
    FS :=
  runSteps (saveSteps tmp c.path (marshal c)) fs

/-- `Config.GetProfile`. -/
def Config.getProfile (c : Config) (name : String) : Option Profile :=
  c.profiles.lookup name

/-- `Config.SetProfile`. -/
def Config.setProfile (c : Config) (name : String) (p : Profile) : Config :=
  { c with profiles := (name, p) :: c.profiles.filter (fun q => q.1 ≠ name) }

/-- `Config.ActiveProfile`. -/
def Config.activeProfile (c : Config) (override : String) :
    Except GoErr (String × Profile) :=
  let name := if override ≠ "" then override else c.defaultProfile
  if name = "" then .error (.mk "no profile configured")
  else
    match c.profiles.lookup name with
    | some p => .ok (name, p)
    | none => .error (.mk ("profile \"" ++ name ++ "\" not found"))

end config

namespace configB

/-! ## Profile Store, in-place variant

The second `package config` implementation found in the repository: its
`Save` is a plain `os.WriteFile(path, data, 0600)` and its `Load` eagerly
saves an empty collection when the file is absent. -/

structure Profile where
  baseURL : String := ""
  apiKey : String := ""
deriving DecidableEq, Repr

structure Config where
  defaultProfile : String := ""
  profiles : List (String × Profile) := []
  path : String := ""
deriving DecidableEq, Repr

/-- The step sequence of `Config.Save` (in-place variant):
`os.WriteFile` = open with truncation, then write. -/
def saveSteps (path data : String) : List (FS → FS) :=
  [fsTruncCreate path 0o600, fsAppend path data]

def save (marshal : Config → String) (c : Config) (fs : FS) : FS :=
  runSteps (saveSteps c.path (marshal c)) fs

/-- `config.Load` (in-place variant): when the file is absent the empty
collection is saved to disk immediately; the updated filesystem is part of
the result. -/
def load (fs : FS) (path : String) (marshal : Config → String)
    (unmarshal : String → Config → Except GoErr Config) :
    Except GoErr (Config × FS) :=
  let cfg0 : Config := { defaultProfile := "default", profiles := [], path := path }
  match fs path with
  | none => .ok (cfg0, save marshal cfg0 fs)
  | some ent =>
    if ent.content = "" then .ok (cfg0, fs)
    else
      match unmarshal ent.content cfg0 with
      | .error e => .error e
      | .ok c =>
        .ok ({ c with
               path := path
               defaultProfile :=
                 if c.defaultProfile = "" then "default"
                 else c.defaultProfile }, fs)

end configB

namespace root

/-! ## Connection Resolver (`resolveConnection` in `package root`)

The global flag variables become a `Flags` record, the two viper
environment lookups (`SABX_BASE_URL`, `SABX_API_KEY`) an `EnvR` record,
and `auth.LoadAPIKey` a function parameter `loadKey` (instantiated with
`auth.Store.load` over a concrete keyring where a claim needs it). -/

structure Flags where
  profileFlag : String := ""
  baseURLFlag : String := ""
  apiKeyFlag : String := ""

structure EnvR where
  baseURL : String := ""
  apiKey : String := ""

def zeroProfile : config.Profile := {}

/-- `profileOrDefault` from `package root`. -/
def profileOrDefault (profile : String) : String :=
  if trimSpace profile = "" then "default" else profile

/-- Lines 172–189 of `resolveConnection`: the endpoint check, the Secret
Store lookup with inline-secret fallback, and the final triple. -/
def finishResolve (loadKey : String → String → Except GoErr String)
    (profileCfg : config.Profile) (profile baseURL apiKey : String) :
    Except GoErr (String × String × String) :=
  if baseURL = "" then
    .error (.mk "no SABnzbd base URL configured; run 'sabx login'")
  else if apiKey = "" then
    match loadKey (profileOrDefault profile) baseURL with
    | .ok key => .ok (profileOrDefault profile, baseURL, key)
    | .error keyErr =>
      if profileCfg.apiKey ≠ "" then
        .ok (profileOrDefault profile, baseURL, profileCfg.apiKey)
      else
        .error (.mk ("api key not found for profile \"" ++
          profileOrDefault profile ++ "\" (" ++ keyErr.message ++ ")"))
  else .ok (profileOrDefault profile, baseURL, apiKey)

/-- `resolveConnection` from `package root`. -/
def resolveConnection (fl : Flags) (env : EnvR)
    (cfg : Option config.Config)
    (loadKey : String → String → Except GoErr String) :
    Except GoErr (String × String × String) :=
  let baseURL := trimSpace fl.baseURLFlag
  let apiKey := trimSpace fl.apiKeyFlag
  let baseURL :=
    if baseURL = "" ∧ trimSpace env.baseURL ≠ "" then trimSpace env.baseURL
    else baseURL
  let apiKey :=
    if apiKey = "" ∧ trimSpace env.apiKey ≠ "" then trimSpace env.apiKey
    else apiKey
  let profile := trimSpace fl.profileFlag
  match cfg with
  | none => finishResolve loadKey zeroProfile profile baseURL apiKey
  | some c =>
    match c.activeProfile profile with
    | .ok (resolvedProfile, cfgProfile) =>
      finishResolve loadKey cfgProfile resolvedProfile
        (if baseURL = "" then cfgProfile.baseURL else baseURL) apiKey
    | .error cfgErr =>
      if profile = "" then .error cfgErr
      else finishResolve loadKey zeroProfile profile baseURL apiKey

end root

/-! ## Fixtures for concrete scenarios -/

/-- Modelled from the spec (§7 error taxonomy): the NotConfigured condition
("no profile, endpoint, or secret resolvable by any precedence path") as it
surfaces in this code base — the two not-configured messages. The code has
no typed error values, so the condition is identified by message. -/
def isNotConfigured (e : GoErr) : Bool :=
  e.message = "no profile configured" ∨
  e.message = "no SABnzbd base URL configured; run 'sabx login'"

/-- Profile `"default"` with stored endpoint `http://host:8080` (claim C1). -/
def c1Profile : config.Profile := { baseURL := "http://host:8080" }

def c1Config : config.Config :=
  { defaultProfile := "default", profiles := [("default", c1Profile)] }

def c1StoredItem : auth.Item :=
  ⟨"stored-secret", "sabx profile default API key"⟩

/-- Secret Store contents with the secret under the *stored* endpoint. -/
def c1Keyring : auth.Keyring :=
  fun k => if k = auth.keyFor "default" "http://host:8080" then
    some c1StoredItem else none

/-- Secret Store contents with the secret under the *override* endpoint. -/
def c1KeyringOverride : auth.Keyring :=
  fun k => if k = auth.keyFor "default" "http://override:9090" then
    some c1StoredItem else none

def c1Flags : root.Flags := { baseURLFlag := "http://override:9090" }

/-- The collection `config.load` produces from an empty filesystem (C4/C7). -/
def emptyLoadedConfig : config.Config :=
  { defaultProfile := "default", profiles := [], path := "cfgdir/config.yml" }

/-- A filesystem holding one non-empty config file (claim C2). -/
def c2fs : FS :=
  fun p => if p = "config.yaml" then
    some ⟨"default_profile: default\n", 0o600⟩ else none

/-- A filesystem for the temp-file save scenario (claim C2 witness). -/
def c2fsA : FS :=
  fun p => if p = "config.yml" then some ⟨"old: 1", 0o600⟩ else none

deriving instance DecidableEq for Except

/-! ## Helper lemmas -/

theorem string_data_append (s t : String) : (s ++ t).data = s.data ++ t.data :=
  rfl

theorem string_empty_append (s : String) : "" ++ s = s := rfl

theorem string_ext {a b : String} (h : a.data = b.data) : a = b := by
  cases a
  cases b
  exact congrArg String.mk h

theorem string_append_left_cancel {s a b : String} (h : s ++ a = s ++ b) :
    a = b := by
  have hd := congrArg String.data h
  rw [string_data_append, string_data_append] at hd
  exact string_ext (List.append_cancel_left hd)

theorem dropWhile_rdropWhile_self {α : Type} {p : α → Bool} {l : List α}
    (h : l.dropWhile p = l) :
    (List.rdropWhile p l).dropWhile p = List.rdropWhile p l := by
  rcases hpre : List.rdropWhile p l with _ | ⟨a, rest⟩
  · simp
  · obtain ⟨t, ht⟩ := List.rdropWhile_prefix p l
    rw [hpre] at ht
    have hl : l = a :: (rest ++ t) := by
      rw [← ht]; simp
    have hpa : p a = false := by
      by_cases hc : p a
      · exfalso
        rw [hl, List.dropWhile_cons, if_pos hc] at h
        have hlen := congrArg List.length h
        have hle : (List.dropWhile p (rest ++ t)).length ≤ (rest ++ t).length :=
          (List.dropWhile_suffix p).length_le
        simp only [List.length_cons] at hlen
        omega
      · simpa using hc
    simp [List.dropWhile_cons, hpa]

theorem trimSpace_idem (s : String) : trimSpace (trimSpace s) = trimSpace s :=
  congrArg String.mk (by
    show List.rdropWhile goIsSpace
        ((List.rdropWhile goIsSpace (s.data.dropWhile goIsSpace)).dropWhile
          goIsSpace) =
      List.rdropWhile goIsSpace (s.data.dropWhile goIsSpace)
    rw [dropWhile_rdropWhile_self (List.dropWhile_idempotent _ _),
      List.rdropWhile_idempotent])

theorem trimSpace_all_space {s : String} (h : ∀ c ∈ s.data, goIsSpace c) :
    trimSpace s = "" := by
  have h1 : s.data.dropWhile goIsSpace = [] :=
    List.dropWhile_eq_nil_iff.mpr h
  unfold trimSpace
  rw [h1]
  rfl

theorem sanitize_trimSpace (p : String) :
    auth.sanitize (trimSpace p) = auth.sanitize p := by
  simp only [auth.sanitize, trimSpace_idem]

/-! ## SHA-256 validation -/

/-- FIPS 180-4 test vector: the digest of the empty message. -/
theorem sha256_vector_empty :
    hexEncode (sha256Bytes (utf8Bytes "")) =
      "e3b0c44298fc1c149afbf4c8996fb92427ae41e4649b934ca495991b7852b855" := by
  decide

/-- FIPS 180-4 test vector: the digest of `"abc"`. -/
theorem sha256_vector_abc :
    hexEncode (sha256Bytes (utf8Bytes "abc")) =
      "ba7816bf8f01cfea414140de5dae2223b00361a396177a9cb410ff61f20015ad" := by
  decide


theorem string_append_assoc (a b c : String) : a ++ b ++ c = a ++ (b ++ c) :=
  string_ext (by
    rw [string_data_append, string_data_append, string_data_append,
      string_data_append, List.append_assoc])

/-- `finishResolve` consults its profile argument only through
`profileOrDefault`. -/
theorem finishResolve_profile_congr {lk : String → String → Except GoErr String}
    {pc : config.Profile} {p q b k : String}
    (h : root.profileOrDefault p = root.profileOrDefault q) :
    root.finishResolve lk pc p b k = root.finishResolve lk pc q b k := by
  simp only [root.finishResolve, h]

/-! ## Claim theorems -/

set_option maxRecDepth 8000

/-- Claim C5 (confirmed): Secret Store round-trip — for every backend state,
profile, endpoint and secret, `save` then `load` returns exactly the saved
secret, and `load` after `delete` returns the `ErrNotFound` sentinel (the
dedicated NotFound condition, distinct from other errors by construction). -/
theorem C5_roundtrip (kr : auth.Keyring) (p u s : String) :
    (auth.Store.save ⟨some kr⟩ p u s).map (fun st => st.load p u) =
      .ok (.ok s) ∧
    (auth.Store.save ⟨some kr⟩ p u s).map (fun st =>
      (st.delete p u).map (fun st2 => st2.load p u)) =
      .ok (.ok (.error auth.ErrNotFound)) := by
  constructor
  · simp [auth.Store.save, auth.Store.load, auth.krSet, auth.krGet, Except.map]
  · simp [auth.Store.save, auth.Store.load, auth.Store.delete, auth.krSet,
      auth.krGet, auth.krRemove, Except.map, errIs]

/-- Claim C6 (confirmed): deleting a secret that is absent from the backend
returns success and leaves the store unchanged. -/
theorem C6_idempotent_delete (kr : auth.Keyring) (p u : String)
    (h : kr (auth.keyFor p u) = none) :
    auth.Store.delete ⟨some kr⟩ p u = .ok ⟨some kr⟩ := by
  simp [auth.Store.delete, auth.krRemove, errIs, h]

/-- Witness for C6 at the empty backend. -/
theorem C6_idempotent_delete_witness :
    auth.Store.delete ⟨some (fun _ => none)⟩ "p" "http://h" =
      .ok ⟨some (fun _ => none)⟩ :=
  C6_idempotent_delete (fun _ => none) "p" "http://h" rfl


/-- Claim C10 (confirmed): an empty or whitespace-only profile name is
treated as `"default"` at the public interface — the derived key, and hence
`save`/`load`/`delete`, agree with profile `"default"`, `profileOrDefault`
substitutes `"default"`, and the resolver behaves identically for a
whitespace-only profile flag and the literal `"default"` flag. -/
theorem C10_whitespace_profile (ws : String)
    (h : ∀ c ∈ ws.data, goIsSpace c) :
    (∀ u, auth.keyFor ws u = auth.keyFor "default" u) ∧
    (∀ kr u, auth.Store.load ⟨some kr⟩ ws u =
      auth.Store.load ⟨some kr⟩ "default" u) ∧
    (∀ kr u s, auth.Store.save ⟨some kr⟩ ws u s =
      auth.Store.save ⟨some kr⟩ "default" u s) ∧
    (∀ kr u, auth.Store.delete ⟨some kr⟩ ws u =
      auth.Store.delete ⟨some kr⟩ "default" u) ∧
    root.profileOrDefault ws = "default" ∧
    (∀ b k env lk, root.resolveConnection ⟨ws, b, k⟩ env none lk =
      root.resolveConnection ⟨"default", b, k⟩ env none lk) := by
  have hts : trimSpace ws = "" := trimSpace_all_space h
  have hd : auth.sanitize "default" = "default" := by decide
  have hsan : auth.sanitize ws = "default" := by
    simp [auth.sanitize, hts]
  have hkey : ∀ u, auth.keyFor ws u = auth.keyFor "default" u := by
    intro u
    simp [auth.keyFor, hsan, hd]
  refine ⟨hkey, ?_, ?_, ?_, ?_, ?_⟩
  · intro kr u
    simp [auth.Store.load, hkey u]
  · intro kr u s
    simp [auth.Store.save, hkey u, hsan, hd]
  · intro kr u
    simp [auth.Store.delete, hkey u]
  · simp [root.profileOrDefault, hts]
  · intro b k env lk
    simp only [root.resolveConnection]
    apply finishResolve_profile_congr
    rw [hts]
    decide

/-- Witness for C10 at the one-space profile name. -/
theorem C10_whitespace_profile_witness :
    auth.keyFor " " "http://h" = auth.keyFor "default" "http://h" ∧
    root.profileOrDefault " " = "default" :=
  ⟨(C10_whitespace_profile " " (by decide)).1 "http://h",
   (C10_whitespace_profile " " (by decide)).2.2.2.2.1⟩

/-- Claim C9, counterexample: the stated determinism equation
`derive_key(profile, url) = derive_key(trim(profile), normalize(url))`
fails at `url = "a /"`, because `normalizeBaseURL` is not idempotent — it
strips the trailing slash and exposes a trailing space that a second
normalization would remove, so the two hash inputs differ. -/
theorem C9_counterexample :
    auth.keyFor "p" "a /" ≠
      auth.keyFor (trimSpace "p") (auth.normalizeBaseURL "a /") := by
  decide

/-- Claim C9 (corrected): profile-name whitespace never changes the derived
key; the url-normalization half of the determinism equation holds whenever
normalization is idempotent at the url; and two urls produce different keys
whenever the truncated SHA-256 digests of their normalized forms differ
(distinctness cannot be unconditional for a fixed-width hash). -/
theorem C9_amended_determinism :
    (∀ p u, auth.keyFor (trimSpace p) u = auth.keyFor p u) ∧
    (∀ p u, auth.normalizeBaseURL (auth.normalizeBaseURL u) =
        auth.normalizeBaseURL u →
      auth.keyFor (trimSpace p) (auth.normalizeBaseURL u) = auth.keyFor p u) ∧
    (∀ p u v,
      hexEncode ((sha256Bytes (utf8Bytes (auth.normalizeBaseURL u))).take 16) ≠
        hexEncode ((sha256Bytes (utf8Bytes (auth.normalizeBaseURL v))).take 16) →
      auth.keyFor p u ≠ auth.keyFor p v) := by
  refine ⟨?_, ?_, ?_⟩
  · intro p u
    simp [auth.keyFor, sanitize_trimSpace]
  · intro p u hnorm
    simp [auth.keyFor, sanitize_trimSpace, hnorm]
  · intro p u v hne heq
    exact hne (string_append_left_cancel (by simpa [auth.keyFor] using heq))

/-- Witness for C9 at a normalization-idempotent url and two distinct hosts. -/
theorem C9_determinism_witness :
    auth.keyFor (trimSpace " default ")
        (auth.normalizeBaseURL "https://Example.com/api/") =
      auth.keyFor " default " "https://Example.com/api/" ∧
    auth.keyFor "p" "https://example.com" ≠
      auth.keyFor "p" "https://example.net" :=
  ⟨C9_amended_determinism.2.1 " default " "https://Example.com/api/" (by decide),
   C9_amended_determinism.2.2 "p" "https://example.com" "https://example.net"
     (by decide)⟩


/-- Claim C3, counterexample: a caller-supplied allow-list is returned
verbatim, without stripping the file backend, even when the
insecure-fallback flag is false. -/
theorem C3_counterexample :
    auth.BackendType.file ∈ auth.resolveAllowedBackends {} "linux"
      { allowFile := false, allowedBackends := [auth.BackendType.file] } := by
  decide

/-- Claim C3 (corrected): with the insecure-fallback flag false, the
resolved backend list contains the file backend only if the (package
internal) caller-supplied allow-list itself contains it; in particular when
that list is empty — the only reachable state through the public options —
the resolved list never contains the file backend, whatever the
environment and platform. -/
theorem C3_amended_backend_filtering (env : auth.StoreEnv) (goos : String)
    (opts : auth.OpenOptions) (hAF : opts.allowFile = false) :
    (auth.BackendType.file ∈ auth.resolveAllowedBackends env goos opts →
      auth.BackendType.file ∈ opts.allowedBackends) ∧
    (opts.allowedBackends = [] →
      auth.BackendType.file ∉ auth.resolveAllowedBackends env goos opts) := by
  have hparse : ∀ raw, auth.BackendType.file ∉ auth.parseBackendList raw false := by
    intro raw hmem
    simp only [auth.parseBackendList, if_neg Bool.false_ne_true] at hmem
    simp [List.mem_filter] at hmem
  have hdef : auth.BackendType.file ∉ auth.defaultBackends goos := by
    intro hmem
    rw [auth.defaultBackends] at hmem
    split at hmem
    · simp at hmem
    · split at hmem
      · simp at hmem
      · simp at hmem
  have key : opts.allowedBackends = [] →
      auth.BackendType.file ∉ auth.resolveAllowedBackends env goos opts := by
    intro hnil hmem
    simp only [auth.resolveAllowedBackends, hnil, ne_eq, not_true_eq_false,
      if_false, hAF] at hmem
    split at hmem
    · exact hparse _ hmem
    · rw [if_neg Bool.false_ne_true, List.append_nil] at hmem
      exact hdef hmem
  refine ⟨?_, key⟩
  intro hmem
  by_cases hnil : opts.allowedBackends = []
  · exact absurd hmem (key hnil)
  · rw [auth.resolveAllowedBackends, if_pos hnil] at hmem
    exact hmem

/-- Witness for C3 with a hostile environment list and empty caller list. -/
theorem C3_backend_filtering_witness :
    auth.BackendType.file ∉ auth.resolveAllowedBackends
      { sabxBackend := "file,keychain" } "linux" { allowFile := false } :=
  (C3_amended_backend_filtering { sabxBackend := "file,keychain" } "linux"
    { allowFile := false } rfl).2 rfl

/-- Claim C8 (confirmed): when the native keyring cannot be opened
(`ErrNoAvailImpl`) and the resolved backends do not include the file
fallback, `Open` fails with an error that still satisfies
`IsNoKeyringError` (distinguishable via `errors.Is`) and whose message
names both the opt-in environment variable and the opt-in flag; an open
failure that is not `ErrNoAvailImpl` never satisfies `IsNoKeyringError`. -/
theorem C8_no_backend_error (goos : String) (env : auth.StoreEnv)
    (optFns : List (auth.OpenOptions → auth.OpenOptions))
    (krOpen : List auth.BackendType → Except GoErr auth.Keyring) (e : GoErr)
    (hko : krOpen (auth.resolveAllowedBackends env goos
      (auth.openSettings env optFns)) = .error e) :
    (errIs e .noAvailImpl = true →
      auth.usesFileBackend (auth.resolveAllowedBackends env goos
        (auth.openSettings env optFns)) = false →
      ∃ err, auth.Open goos env optFns krOpen = .error err ∧
        auth.IsNoKeyringError err = true ∧
        ∃ pre mid post, err.message =
          pre ++ "SABX_ALLOW_INSECURE_STORE" ++ mid ++
            "--allow-insecure-store" ++ post) ∧
    (errIs e .noAvailImpl = false →
      ∃ err, auth.Open goos env optFns krOpen = .error err ∧
        auth.IsNoKeyringError err = false) := by
  constructor
  · intro hna hnf
    refine ⟨GoErr.wrapf "open keyring: "
      (" (set SABX_ALLOW_INSECURE_STORE=1 or rerun with" ++
       " --allow-insecure-store to permit encrypted file fallback)") e,
      ?_, ?_, ?_⟩
    · simp [auth.Open, hko, hna, hnf]
    · simpa [auth.IsNoKeyringError, errIs] using hna
    · refine ⟨"open keyring: " ++ e.message ++ " (set ", "=1 or rerun with ",
        " to permit encrypted file fallback)", ?_⟩
      have hw : ((" (set SABX_ALLOW_INSECURE_STORE=1 or rerun with" ++
          " --allow-insecure-store to permit encrypted file fallback)") : String) =
          " (set " ++ "SABX_ALLOW_INSECURE_STORE" ++ "=1 or rerun with " ++
            "--allow-insecure-store" ++ " to permit encrypted file fallback)" := by
        decide
      show "open keyring: " ++ e.message ++ _ = _
      rw [hw]
      simp only [string_append_assoc]
  · intro hna
    refine ⟨GoErr.wrapf "open keyring: " "" e, ?_, ?_⟩
    · simp [auth.Open, hko, hna]
    · simpa [auth.IsNoKeyringError, errIs] using hna

/-- Witness for C8 on a host where no native backend opens. -/
theorem C8_no_backend_error_witness :
    ∃ err, auth.Open "linux" {} [] (fun _ => .error GoErr.noAvailImpl) =
        .error err ∧
      auth.IsNoKeyringError err = true ∧
      ∃ pre mid post, err.message =
        pre ++ "SABX_ALLOW_INSECURE_STORE" ++ mid ++
          "--allow-insecure-store" ++ post :=
  (C8_no_backend_error "linux" {} [] (fun _ => .error GoErr.noAvailImpl)
    GoErr.noAvailImpl rfl).1 rfl (by decide)


/-- Claim C4, counterexample: resolving against the collection that `load`
returns when no config file exists does not produce the NotConfigured
condition — the default pointer is seeded with `"default"`, so the failure
is the ProfileNotFound message `profile "default" not found`. -/
theorem C4_counterexample :
    config.load (fun _ => none) "cfgdir" (fun _ c => .ok c) =
      .ok emptyLoadedConfig ∧
    root.resolveConnection {} {} (some emptyLoadedConfig)
      (fun _ _ => .error GoErr.notExist) =
      .error (.mk "profile \"default\" not found") ∧
    isNotConfigured (.mk "profile \"default\" not found") = false := by
  refine ⟨by decide, by decide, by decide⟩

/-- Claim C4 (corrected): with no flag or environment overrides, resolving
against the empty collection produced by `load` fails with the
ProfileNotFound condition naming profile `"default"`; the NotConfigured
condition (`no profile configured`) arises only for a collection whose
default-profile pointer is actually empty, which `load` never produces. -/
theorem C4_amended_failure_scenario :
    (config.load (fun _ => none) "cfgdir" (fun _ c => .ok c) =
      .ok emptyLoadedConfig) ∧
    root.resolveConnection {} {} (some emptyLoadedConfig)
      (fun _ _ => .error GoErr.notExist) =
      .error (.mk "profile \"default\" not found") ∧
    (∀ (path : String) (lk : String → String → Except GoErr String),
      root.resolveConnection {} {}
        (some { defaultProfile := "", profiles := [], path := path }) lk =
        .error (.mk "no profile configured")) ∧
    isNotConfigured (.mk "no profile configured") = true := by
  refine ⟨by decide, by decide, ?_, by decide⟩
  intro path lk
  rfl

/-- Claim C7, counterexample: when no config file exists, the temp-file
variant of `load` returns a collection whose default-profile pointer is
`"default"`, not the empty string. -/
theorem C7_counterexample :
    config.load (fun _ => none) "cfgdir" (fun _ c => .ok c) =
      .ok emptyLoadedConfig ∧
    emptyLoadedConfig.defaultProfile = "default" ∧
    emptyLoadedConfig.defaultProfile ≠ "" := by
  refine ⟨by decide, by decide, by decide⟩

/-- Claim C7 (corrected): with no config file on disk, the temp-file
variant of `load` returns the empty collection with default pointer
`"default"` (and, reading only, creates nothing); the in-place variant
eagerly saves an empty config file to disk during `load`. -/
theorem C7_amended_load_empty :
    (∀ (fs : FS) (dir : String)
        (unmarshal : String → config.Config → Except GoErr config.Config),
      fs (dir ++ "/config.yml") = none → fs (dir ++ "/config.yaml") = none →
      config.load fs dir unmarshal =
        .ok { defaultProfile := "default", profiles := [],
              path := dir ++ "/config.yml" }) ∧
    (∀ (fs : FS) (path : String) (marshal : configB.Config → String)
        (unmarshal : String → configB.Config → Except GoErr configB.Config),
      fs path = none →
      configB.load fs path marshal unmarshal =
        .ok ({ defaultProfile := "default", profiles := [], path := path },
          configB.save marshal
            { defaultProfile := "default", profiles := [], path := path } fs) ∧
      (configB.save marshal
        { defaultProfile := "default", profiles := [], path := path } fs
          path).isSome = true) := by
  constructor
  · intro fs dir unmarshal h1 h2
    simp [config.load, h1, h2]
  · intro fs path marshal unmarshal h
    refine ⟨by simp [configB.load, h], ?_⟩
    simp [configB.save, configB.saveSteps, runSteps, fsTruncCreate, fsAppend, h]

/-- Witness for C7 on the empty filesystem. -/
theorem C7_load_empty_witness :
    config.load (fun _ => none) "d" (fun _ c => .ok c) =
      .ok { defaultProfile := "default", profiles := [],
            path := "d" ++ "/config.yml" } ∧
    (configB.save (fun _ => "serialized")
      { defaultProfile := "default", profiles := [], path := "d/config.yaml" }
      (fun _ => none) "d/config.yaml").isSome = true :=
  ⟨(C7_amended_load_empty).1 (fun _ => none) "d" (fun _ c => .ok c) rfl rfl,
   ((C7_amended_load_empty).2 (fun _ => none) "d/config.yaml"
     (fun _ => "serialized") (fun _ c => .ok c) rfl).2⟩


/-- Claim C2, counterexample: the in-place `os.WriteFile` variant of
`Config.Save` exposes an intermediate state — after the truncating open and
before the write, a concurrent reader of the target path sees an empty
file, which is neither the old content nor the new content. -/
theorem C2_counterexample :
    runSteps ((configB.saveSteps "config.yaml" "newdata").take 1) c2fs
      "config.yaml" = some ⟨"", 0o600⟩ ∧
    c2fs "config.yaml" = some ⟨"default_profile: default\n", 0o600⟩ ∧
    runSteps (configB.saveSteps "config.yaml" "newdata") c2fs "config.yaml" =
      some ⟨"newdata", 0o600⟩ ∧
    some (⟨"", 0o600⟩ : FileEnt) ≠
      some (⟨"default_profile: default\n", 0o600⟩ : FileEnt) ∧
    some (⟨"", 0o600⟩ : FileEnt) ≠ some (⟨"newdata", 0o600⟩ : FileEnt) := by
  refine ⟨by decide, by decide, by decide, by decide, by decide⟩

/-- Claim C2 (corrected): the temp-file variant of `Config.Save` is atomic —
every prefix of its step sequence that stops before the rename leaves the
target byte-for-byte unchanged, the completed sequence leaves the new
content (mode `0600`) fully readable, and every reachable intermediate
state shows either the old or the new content; the in-place variant is not
atomic — its truncating open step replaces a non-empty target with an empty
file before the new content is written. -/
theorem C2_amended_atomic_save (fs : FS) (tmp path data : String)
    (hne : tmp ≠ path) :
    (∀ i, i ≤ 5 →
      runSteps ((config.saveSteps tmp path data).take i) fs path = fs path) ∧
    runSteps (config.saveSteps tmp path data) fs path =
      some ⟨data, 0o600⟩ ∧
    (∀ i, i ≤ 7 →
      runSteps ((config.saveSteps tmp path data).take i) fs path = fs path ∨
      runSteps ((config.saveSteps tmp path data).take i) fs path =
        some ⟨data, 0o600⟩) ∧
    (∀ (fs' : FS) (path' data' : String) (ent : FileEnt),
      fs' path' = some ent → ent.content ≠ "" →
      runSteps ((configB.saveSteps path' data').take 1) fs' path' ≠
        fs' path' ∧
      runSteps (configB.saveSteps path' data') fs' path' =
        some ⟨data', ent.mode⟩) := by
  have hpt : path ≠ tmp := Ne.symm hne
  have hpre : ∀ i, i ≤ 5 →
      runSteps ((config.saveSteps tmp path data).take i) fs path = fs path := by
    intro i hi
    interval_cases i <;>
      simp [runSteps, config.saveSteps, fsCreate, fsAppend, fsSync, fsClose,
        fsChmod, fsRename, fsRemove, hpt]
  have hfull : runSteps (config.saveSteps tmp path data) fs path =
      some ⟨data, 0o600⟩ := by
    simp [runSteps, config.saveSteps, fsCreate, fsAppend, fsSync, fsClose,
      fsChmod, fsRename, fsRemove, hpt, string_empty_append]
  refine ⟨hpre, hfull, ?_, ?_⟩
  · intro i hi
    by_cases h5 : i ≤ 5
    · exact Or.inl (hpre i h5)
    · right
      have h67 : i = 6 ∨ i = 7 := by omega
      rcases h67 with h6 | h7
      · subst h6
        simp [runSteps, config.saveSteps, fsCreate, fsAppend, fsSync, fsClose,
          fsChmod, fsRename, fsRemove, hpt, string_empty_append]
      · subst h7
        calc runSteps ((config.saveSteps tmp path data).take 7) fs path =
            runSteps (config.saveSteps tmp path data) fs path := by
              rw [List.take_of_length_le (by simp [config.saveSteps])]
          _ = some ⟨data, 0o600⟩ := hfull
  · intro fs' path' data' ent hent hcne
    constructor
    · intro hcontra
      rw [hent] at hcontra
      have : (⟨"", ent.mode⟩ : FileEnt) = ent := by
        have heval : runSteps ((configB.saveSteps path' data').take 1) fs'
            path' = some ⟨"", ent.mode⟩ := by
          simp [runSteps, configB.saveSteps, fsTruncCreate, hent]
        rw [heval] at hcontra
        exact Option.some_injective _ hcontra
      exact hcne (by rw [← this])
    · simp [runSteps, configB.saveSteps, fsTruncCreate, fsAppend, hent,
        string_empty_append]

/-- Witness for C2 at a concrete filesystem and temp name. -/
theorem C2_atomic_save_witness :
    runSteps ((config.saveSteps ".config-1.yml" "config.yml" "newdata").take 3)
      c2fsA "config.yml" = c2fsA "config.yml" ∧
    runSteps (config.saveSteps ".config-1.yml" "config.yml" "newdata") c2fsA
      "config.yml" = some ⟨"newdata", 0o600⟩ :=
  ⟨(C2_amended_atomic_save c2fsA ".config-1.yml" "config.yml" "newdata"
      (by decide)).1 3 (by omega),
   (C2_amended_atomic_save c2fsA ".config-1.yml" "config.yml" "newdata"
      (by decide)).2.1⟩

/-- Claim C1, counterexample: with the secret stored in the Secret Store
under the profile's *stored* endpoint, an explicit endpoint override makes
the Secret Store lookup miss (the lookup key is derived from the override
endpoint), so resolution fails instead of returning the stored secret. -/
theorem C1_counterexample :
    root.resolveConnection c1Flags {} (some c1Config)
      (fun p u => auth.Store.load ⟨some c1Keyring⟩ p u) =
      .error (.mk
        "api key not found for profile \"default\" (file does not exist)") ∧
    root.resolveConnection c1Flags {} (some c1Config)
      (fun p u => auth.Store.load ⟨some c1Keyring⟩ p u) ≠
      .ok ("default", "http://override:9090", "stored-secret") := by
  refine ⟨by decide, by decide⟩

/-- Claim C1 (corrected): endpoint and secret are still resolved per-field,
but the Secret Store lookup uses the *resolved* endpoint: with the secret
stored under the override endpoint, resolution returns the override
endpoint together with the stored secret; without any override, the stored
endpoint and its stored secret are returned. -/
theorem C1_amended_precedence :
    root.resolveConnection c1Flags {} (some c1Config)
      (fun p u => auth.Store.load ⟨some c1KeyringOverride⟩ p u) =
      .ok ("default", "http://override:9090", "stored-secret") ∧
    root.resolveConnection {} {} (some c1Config)
      (fun p u => auth.Store.load ⟨some c1Keyring⟩ p u) =
      .ok ("default", "http://host:8080", "stored-secret") := by
  refine ⟨by decide, by decide⟩

end sabx
